import Mathlib

/-!
Shallow embedding of the ancillary-data subsystem of the `interprocess`
repository: the generic `ConversionError` type (`src/error.rs`), the context
collector framework (`src/os/unix/udsocket/cmsg/context.rs`) and the stream
ancillary I/O operations (`src/os/unix/udsocket/stream.rs`).

Strings are modelled as lists of characters (`Str`), machine integers as
`Int`/`Nat`, fallible Rust functions as `IoResult`, and each system call as an
oracle record giving the outcome the kernel chose for that call.  Operations
additionally emit a trace of observable events (system calls performed,
collector hooks invoked) so that claims about what a code path does and does
not invoke can be stated.
-/

/-- Text, modelled as a list of characters. -/
abbrev Str := List Char

/-- Model of `std::io::Error`: either a raw OS error code (as produced by
`io::Error::last_os_error()` in the `ok_or_ret_errno!` macro) or a boxed
message. -/
inductive IoError where
  | fromRawOsError (code : Nat)
  | other (msg : Str)
  deriving DecidableEq, Repr

/-- Model of `std::io::Result`. -/
inductive IoResult (α : Type) where
  | ok (val : α)
  | err (e : IoError)
  deriving DecidableEq, Repr

/-- Whether an `IoResult` is the error variant. -/
def IoResult.isErr {α : Type} : IoResult α → Bool
  | .ok _ => false
  | .err _ => true

/-! ## `src/error.rs` — `ConversionError`

The struct declaration in the source reads `pub source: S`, but every method
body treats the field as an `Option`: `map_source` applies `Option::map`,
`try_map_source` applies `Option::and_then` and is documented as allowing the
closure to drop the ownership.  The embedding therefore gives the field the
type `Option S`, under which all method bodies type-check; the constructors
store the passed resource as `some s`. -/

/-- `ConversionError<S, E>` from `src/error.rs`: `details` describes the
failed conversion stage, `cause` is the optional underlying OS error, and
`source` retains ownership of the input of the conversion. -/
structure ConversionError (S E : Type) where
  details : E
  cause : Option IoError
  source : Option S
  deriving DecidableEq, Repr

/-- `ConversionError::from_source_and_cause`: constructs an error value from a
given OS cause, filling the details field with its default value. -/
def ConversionError.from_source_and_cause {S E : Type} [Inhabited E]
    (source : S) (cause : IoError) : ConversionError S E :=
  { details := default, cause := some cause, source := some source }

/-- `ConversionError::from_source_and_details`: constructs an error value
without an OS cause. -/
def ConversionError.from_source_and_details {S E : Type}
    (source : S) (details : E) : ConversionError S E :=
  { details := details, cause := none, source := some source }

/-- The `From<S> for ConversionError<S, E>` impl: constructs an error value
without an OS cause and with default contents for the details field. -/
def ConversionError.fromSource {S E : Type} [Inhabited E]
    (source : S) : ConversionError S E :=
  { details := default, cause := none, source := some source }

/-- `ConversionError::map_source`: maps the type with which ownership over the
input is returned using the given closure. -/
def ConversionError.map_source {S Sb E : Type}
    (e : ConversionError S E) (f : S → Sb) : ConversionError Sb E :=
  { details := e.details, cause := e.cause, source := e.source.map f }

/-- `ConversionError::try_map_source`: maps the type with which ownership over
the input is returned using the given closure, also allowing it to drop the
ownership. -/
def ConversionError.try_map_source {S Sb E : Type}
    (e : ConversionError S E) (f : S → Option Sb) : ConversionError Sb E :=
  { details := e.details, cause := e.cause, source := e.source.bind f }

/-! ### Display formatting

`Display for ConversionError` writes `details` through a `FormatSnooper`, then,
when a cause is present, writes the separator only if the snooper saw a
nonempty write, and finally writes the cause directly to the formatter.  The
rendering of a `Display` value is modelled as the list of string fragments its
`fmt` method passes to `write_str`. -/

/-- `FormatSnooper` from `src/error.rs`: records whether any nonempty string
has been forwarded to the underlying formatter. -/
structure FormatSnooper where
  anything_written : Bool
  deriving DecidableEq, Repr

/-- `Write::write_str` for `FormatSnooper`: forwards a nonempty string to the
formatter (whose accumulated output is `out`) and records that something was
written; an empty string is dropped without setting the flag. -/
def FormatSnooper.write_str (snp : FormatSnooper) (out : Str) (s : Str) :
    FormatSnooper × Str :=
  if s.isEmpty then (snp, out)
  else ({ anything_written := true }, out ++ s)

/-- Writing a sequence of fragments through a `FormatSnooper`, as
`write!(snp, "{}", &self.details)` does when the `Display` impl of the details
value emits the fragments in order. -/
def writeFragments : FormatSnooper → Str → List Str → FormatSnooper × Str
  | snp, out, [] => (snp, out)
  | snp, out, s :: rest =>
    let p := snp.write_str out s
    writeFragments p.1 p.2 rest

/-- Body of `<ConversionError as Display>::fmt`: write the details fragments
through a fresh snooper, then, if a cause is present, write the separator only
when the snooper saw nonempty text, followed by the rendered cause. -/
def displayFmt (detailsFrags : List Str) (cause : Option Str) : Str :=
  let p := writeFragments { anything_written := false } [] detailsFrags
  match cause with
  | none => p.2
  | some cs => (if p.1.anything_written then p.2 ++ (": ".data) else p.2) ++ cs

/-- `Display` output of a `ConversionError`, given the fragment sequence the
details type writes and the rendering of an OS error. -/
def ConversionError.display {S E : Type} (e : ConversionError S E)
    (detailsFrags : E → List Str) (causeStr : IoError → Str) : Str :=
  displayFmt (detailsFrags e.details) (e.cause.map causeStr)

/-- `NoDetails` marker type from `src/error.rs`. -/
structure NoDetails where
  deriving DecidableEq, Repr

/-- The `Display` impl of `NoDetails` writes nothing at all. -/
def NoDetails.displayFrags : NoDetails → List Str := fun _ => []

/-! ## `src/os/unix/udsocket/cmsg/context.rs` — the collector framework

A collector is a stateful object with two hook points.  A hook invocation is a
state transition that may also emit observable events (the Rust object mutates
its own state; the event list makes the fact and order of the invocations
visible to the theorems). -/

/-- A borrowed socket file descriptor, modelled by its raw fd number. -/
abbrev Fd := Nat

/-- The `Collector` trait: `pre_op_collect` is called right before the call to
`recvmsg` or `sendmsg` with a borrow of the socket fd; `post_op_collect` right
after, additionally receiving the `msg_flags` field of the `msghdr`.  A hook
maps the collector state to a new state plus the events it emits. -/
structure Collector (σ ε : Type) where
  pre_op_collect : σ → Fd → σ × List ε
  post_op_collect : σ → Fd → Int → σ × List ε

/-- The `pre_op_collect` body of `impl Collector for IterCollector<C>`:
`for mut c in &mut self.0 { c.pre_op_collect(socket); }` — the collection is a
list of sub-collector states, each driven by the item impl `c`. -/
def IterCollector.pre_op_collect {σ ε : Type} (c : Collector σ ε) (socket : Fd) :
    List σ → List σ × List ε
  | [] => ([], [])
  | s :: rest =>
    let p := c.pre_op_collect s socket
    let q := IterCollector.pre_op_collect c socket rest
    (p.1 :: q.1, p.2 ++ q.2)

/-- The `post_op_collect` body of `impl Collector for IterCollector<C>`:
`for mut c in &mut self.0 { c.post_op_collect(socket, msghdr_flags); }`. -/
def IterCollector.post_op_collect {σ ε : Type} (c : Collector σ ε) (socket : Fd)
    (msghdr_flags : Int) : List σ → List σ × List ε
  | [] => ([], [])
  | s :: rest =>
    let p := c.post_op_collect s socket msghdr_flags
    let q := IterCollector.post_op_collect c socket msghdr_flags rest
    (p.1 :: q.1, p.2 ++ q.2)

/-! ## `src/os/unix/udsocket/stream.rs` — stream ancillary I/O

Each operation returns, besides its result, the trace of observable events it
performs: system calls and collector-hook invocations.  The outcome the kernel
chooses for a system call (return value, rewritten header fields, errno) is an
oracle record passed as an argument. -/

/-- Observable events of a stream operation. -/
inductive Event where
  | recvmsgCall (fd : Nat)
  | sendmsgCall (fd : Nat)
  | preHookCall (fd : Nat)
  | postHookCall (fd : Nat) (flags : Int)
  deriving DecidableEq, Repr

/-- Whether a trace contains a `pre_op_collect` invocation. -/
def hasPreHook (tr : List Event) : Bool :=
  tr.any fun e => match e with | .preHookCall _ => true | _ => false

/-- Whether a trace contains a `post_op_collect` invocation. -/
def hasPostHook (tr : List Event) : Bool :=
  tr.any fun e => match e with | .postHookCall _ _ => true | _ => false

/-- Number of system calls in a trace. -/
def countSyscalls (tr : List Event) : Nat :=
  tr.countP fun e =>
    match e with
    | .recvmsgCall _ => true
    | .sendmsgCall _ => true
    | _ => false

/-- `UdStream`: owns exactly one file descriptor; the model also tracks the
per-socket kernel options the embedded operations touch. -/
structure UdStream where
  fd : Nat
  passcred : Bool
  nonblocking : Bool
  deriving DecidableEq, Repr

/-- A kernel message header (`libc::msghdr`): the scatter-gather segment
lengths, the ancillary control length and the flags word. -/
structure Msghdr where
  iovLens : List Nat
  controllen : Nat
  flags : Int
  deriving DecidableEq, Repr

/-- Modelled from the spec: `make_msghdr_r` lives in `udsocket/util.rs`, which
is not part of the analysed sources.  Per the spec, the ancillary buffer and
the main-data slices are marshaled into one kernel message header; for a
receive, the control length is the capacity of the ancillary buffer (the
buffer is a mutable region the kernel will fill). -/
def make_msghdr_r (bufs : List Nat) (abuf : Nat) : Msghdr :=
  { iovLens := bufs, controllen := abuf, flags := 0 }

/-- Modelled from the spec: `make_msghdr_w` from `udsocket/util.rs` marshals
the gather segments and the read-only ancillary view into one kernel message
header; the control length is the byte length of the composed view. -/
def make_msghdr_w (bufs : List Nat) (abuf : List Nat) : Msghdr :=
  { iovLens := bufs, controllen := abuf.length, flags := 0 }

/-- Kernel outcome of one `recvmsg` call: the raw return value (`-1` on
failure), the `msg_controllen` and `msg_flags` fields the kernel writes back
into the header, and the errno reported on failure. -/
structure RecvOutcome where
  retval : Int
  controllen : Nat
  msg_flags : Int
  errno : Nat
  deriving DecidableEq, Repr

/-- Kernel outcome of one `sendmsg` call: the raw return value (`-1` on
failure) and the errno reported on failure.  `sendmsg` receives the header
through a const pointer and cannot modify it. -/
structure SendOutcome where
  retval : Int
  errno : Nat
  deriving DecidableEq, Repr

/-- `UdStream::recv_ancillary_vectored`: builds the header with
`make_msghdr_r`, performs one `recvmsg`, and via `ok_or_ret_errno!` returns
`(bytes_read, hdr.msg_controllen)` on success or the OS error on failure. -/
def UdStream.recv_ancillary_vectored (s : UdStream) (bufs : List Nat)
    (abuf : Nat) (w : RecvOutcome) : List Event × IoResult (Nat × Nat) :=
  let hdr := make_msghdr_r bufs abuf
  let hdr2 : Msghdr := { hdr with controllen := w.controllen, flags := w.msg_flags }
  let success := w.retval != -1
  let bytes_read := w.retval.toNat
  ([Event.recvmsgCall s.fd],
    if success then IoResult.ok (bytes_read, hdr2.controllen)
    else IoResult.err (IoError.fromRawOsError w.errno))

/-- `UdStream::recv_ancillary`: delegates to the vectored variant with the
single-segment scatter list `[IoSliceMut::new(buf)]`. -/
def UdStream.recv_ancillary (s : UdStream) (buf : Nat) (abuf : Nat)
    (w : RecvOutcome) : List Event × IoResult (Nat × Nat) :=
  s.recv_ancillary_vectored [buf] abuf w

/-- `UdStream::send_ancillary_vectored`: builds the header with
`make_msghdr_w`, performs one `sendmsg` (header passed by const pointer), and
returns `(bytes_written, hdr.msg_controllen)` on success or the OS error on
failure. -/
def UdStream.send_ancillary_vectored (s : UdStream) (bufs : List Nat)
    (abuf : List Nat) (w : SendOutcome) : List Event × IoResult (Nat × Nat) :=
  let hdr := make_msghdr_w bufs abuf
  let success := w.retval != -1
  let bytes_written := w.retval.toNat
  ([Event.sendmsgCall s.fd],
    if success then IoResult.ok (bytes_written, hdr.controllen)
    else IoResult.err (IoError.fromRawOsError w.errno))

/-- `UdStream::send_ancillary`: delegates to the vectored variant with the
single-segment gather list `[IoSlice::new(buf)]`. -/
def UdStream.send_ancillary (s : UdStream) (buf : Nat) (abuf : List Nat)
    (w : SendOutcome) : List Event × IoResult (Nat × Nat) :=
  s.send_ancillary_vectored [buf] abuf w

/-! ### Connection setup (`UdStream::_connect`) and `Write::flush`

The `c_wrappers` module is not part of the analysed sources; per the spec its
functions are simple syscall pass-throughs, so each is modelled as consuming
one oracle outcome. -/

/-- Oracle outcomes for the steps of `UdStream::_connect`: the
`sockaddr_un` conversion of the path, `c_wrappers::create_uds`,
`c_wrappers::connect` and `c_wrappers::set_passcred`. -/
structure ConnectWorld where
  addrRes : IoResult Unit
  createRes : IoResult Nat
  connectRes : IoResult Unit
  passcredRes : IoResult Unit
  deriving DecidableEq, Repr

/-- Modelled from the spec: `c_wrappers::create_uds` creates the underlying
socket; a freshly created socket does not yet have the pass-credentials option
enabled. -/
def create_uds (nonblocking : Bool) (res : IoResult Nat) : IoResult UdStream :=
  match res with
  | .ok fd => .ok { fd := fd, passcred := false, nonblocking := nonblocking }
  | .err e => .err e

/-- Modelled from the spec: `c_wrappers::set_passcred` sets the kernel option
that makes the peer attach sender credentials; on success the per-socket
option takes the given value. -/
def set_passcred (s : UdStream) (v : Bool) (res : IoResult Unit) :
    IoResult UdStream :=
  match res with
  | .ok _ => .ok { s with passcred := v }
  | .err e => .err e

/-- `UdStream::_connect`: converts the path to a `sockaddr_un`, creates the
socket, connects it, then unconditionally enables the pass-credentials option;
every step propagates its error with `?`. -/
def UdStream.connectImpl (w : ConnectWorld) (nonblocking : Bool) :
    IoResult UdStream :=
  match w.addrRes with
  | .err e => .err e
  | .ok _ =>
    match create_uds nonblocking w.createRes with
    | .err e => .err e
    | .ok sock =>
      match w.connectRes with
      | .err e => .err e
      | .ok _ => set_passcred sock true w.passcredRes

/-- `UdStream::connect`: resolves the path with `to_socket_path()?` and calls
`_connect` with `nonblocking = false`. -/
def UdStream.connect (pathRes : IoResult Unit) (w : ConnectWorld) :
    IoResult UdStream :=
  match pathRes with
  | .err e => .err e
  | .ok _ => UdStream.connectImpl w false

/-- `<&UdStream as Write>::flush`: a socket cannot be flushed, so the body is
just `Ok(())` — no system call, no state change. -/
def UdStream.flush_ref (s : UdStream) : UdStream × List Event × IoResult Unit :=
  (s, [], .ok ())

/-- `<UdStream as Write>::flush`: same body, `Ok(())`. -/
def UdStream.flush_owned (s : UdStream) : UdStream × List Event × IoResult Unit :=
  (s, [], .ok ())

/-! ## Theorems -/

/-- Writing fragments through a snooper: the flag becomes true exactly when
some fragment is nonempty, and the output is the concatenation of all
fragments. -/
theorem writeFragments_spec (frags : List Str) (snp : FormatSnooper) (out : Str) :
    writeFragments snp out frags =
      ({ anything_written := snp.anything_written || frags.any fun s => !s.isEmpty },
        out ++ frags.flatten) := by
  induction frags generalizing snp out with
  | nil => simp [writeFragments]
  | cons s rest ih =>
    cases s with
    | nil => simp [writeFragments, FormatSnooper.write_str, ih]
    | cons a as => simp [writeFragments, FormatSnooper.write_str, ih]

/-- If no fragment is nonempty, the concatenation of the fragments is empty. -/
theorem join_eq_nil_of_no_text (frags : List Str)
    (h : (frags.any fun s => !s.isEmpty) = false) : frags.flatten = [] := by
  induction frags with
  | nil => rfl
  | cons s rest ih =>
    simp only [List.any_cons, Bool.or_eq_false_iff] at h
    have hs : s = [] := by
      have h1 := h.1
      cases s with
      | nil => rfl
      | cons a as => simp at h1
    simp [hs, ih h.2]

/-- C2: for every `ConversionError` value `e`, `map_source f` applies `f` to
the retained resource and leaves `cause` and `details` unchanged, and
`try_map_source g` likewise leaves `cause` and `details` unchanged and either
retains the transformed resource or drops it when `g` returns nothing. -/
theorem C2_map_source_spec {S Sb E : Type}
    (e : ConversionError S E) (f : S → Sb) (g : S → Option Sb) (s : S) :
    (e.map_source f).details = e.details
    ∧ (e.map_source f).cause = e.cause
    ∧ (e.map_source f).source = e.source.map f
    ∧ (e.source = some s → (e.map_source f).source = some (f s))
    ∧ (e.try_map_source g).details = e.details
    ∧ (e.try_map_source g).cause = e.cause
    ∧ (e.try_map_source g).source = e.source.bind g
    ∧ (e.source = some s → (e.try_map_source g).source = g s) := by
  refine ⟨rfl, rfl, rfl, ?_, rfl, rfl, rfl, ?_⟩
  · intro h
    simp [ConversionError.map_source, h]
  · intro h
    simp [ConversionError.try_map_source, h]

/-- C2 witness: concrete instantiation of the pointwise mapping conjunct. -/
theorem C2_witness :
    (ConversionError.map_source
        ({ details := 0, cause := none, source := some 2 } : ConversionError Nat Nat)
        (fun n => n + 1)).source = some 3 :=
  (C2_map_source_spec { details := 0, cause := none, source := some 2 }
      (fun n => n + 1) (fun n => some n) 2).2.2.2.1 rfl

/-- C3: every constructor of `ConversionError` — `from_source_and_cause`,
`from_source_and_details` and the `From<S>` conversion — stores exactly the
passed resource in `source`; no construction path drops or replaces it. -/
theorem C3_constructors_retain_source {S E : Type} [Inhabited E]
    (s : S) (c : IoError) (d : E) :
    (ConversionError.from_source_and_cause (E := E) s c).source = some s
    ∧ (ConversionError.from_source_and_details s d).source = some s
    ∧ (ConversionError.fromSource (E := E) s).source = some s :=
  ⟨rfl, rfl, rfl⟩

/-- C5: the Display output of a `ConversionError` is the details text followed
by a separator and the cause text when the details wrote nonempty text and a
cause is present; the cause text alone (no leading separator) when the details
contributed no text, in particular for `NoDetails`; and the details text alone
when no cause is present. -/
theorem C5_display_format {S E : Type} (e : ConversionError S E)
    (dfrags : E → List Str) (cstr : IoError → Str) (c : IoError)
    (e2 : ConversionError S NoDetails) :
    (e.cause = some c → ((dfrags e.details).any fun s => !s.isEmpty) = true →
      e.display dfrags cstr = (dfrags e.details).flatten ++ ": ".data ++ cstr c)
    ∧ (e.cause = some c → ((dfrags e.details).any fun s => !s.isEmpty) = false →
      e.display dfrags cstr = cstr c)
    ∧ (e.cause = none → e.display dfrags cstr = (dfrags e.details).flatten)
    ∧ (e2.cause = some c → e2.display NoDetails.displayFrags cstr = cstr c) := by
  refine ⟨?_, ?_, ?_, ?_⟩
  · intro hc ha
    simp [ConversionError.display, displayFmt, hc, writeFragments_spec, ha]
  · intro hc ha
    simp [ConversionError.display, displayFmt, hc, writeFragments_spec, ha,
      join_eq_nil_of_no_text _ ha]
  · intro hc
    simp [ConversionError.display, displayFmt, hc, writeFragments_spec]
  · intro hc
    simp [ConversionError.display, displayFmt, hc, NoDetails.displayFrags,
      writeFragments]

/-- C5 witness: with nonempty details text and a cause present, the output is
the details text, the separator and the cause text. -/
theorem C5_witness :
    ConversionError.display
        ({ details := 0, cause := some (IoError.fromRawOsError 11), source := some 0 }
          : ConversionError Nat Nat)
        (fun _ => ["bad".data]) (fun _ => "os error".data)
      = "bad".data ++ ": ".data ++ "os error".data :=
  (C5_display_format
      ({ details := 0, cause := some (IoError.fromRawOsError 11), source := some 0 }
        : ConversionError Nat Nat)
      (fun _ => ["bad".data]) (fun _ => "os error".data) (IoError.fromRawOsError 11)
      { details := NoDetails.mk, cause := none, source := none }).1 rfl (by decide)

/-- C6: the fan-out adapter invokes the pre hook of each sub-collector exactly
once, in the collection's iteration order, all with the same socket borrow,
and the post hook of each sub-collector exactly once in that same order, all
with the same socket borrow and flags word: the resulting states are the
per-element single hook applications and the emitted events are the
concatenation, in order, of each sub-collector's events. -/
theorem C6_itercollector_fanout {σ ε : Type} (c : Collector σ ε) (socket : Fd)
    (flags : Int) (ss : List σ) :
    IterCollector.pre_op_collect c socket ss
      = (ss.map fun s => (c.pre_op_collect s socket).1,
          (ss.map fun s => (c.pre_op_collect s socket).2).flatten)
    ∧ IterCollector.post_op_collect c socket flags ss
      = (ss.map fun s => (c.post_op_collect s socket flags).1,
          (ss.map fun s => (c.post_op_collect s socket flags).2).flatten) := by
  constructor
  · induction ss with
    | nil => rfl
    | cons s rest ih => simp [IterCollector.pre_op_collect, ih]
  · induction ss with
    | nil => rfl
    | cons s rest ih => simp [IterCollector.post_op_collect, ih]

/-- C1 (counterexample): at a concrete call, the event trace of
`recv_ancillary_vectored` consists of the one `recvmsg` system call only — no
`pre_op_collect` and no `post_op_collect` invocation occurs, contrary to the
claim that the operation invokes the collector hooks around the receive. -/
theorem C1_counterexample :
    hasPreHook (UdStream.recv_ancillary_vectored
        { fd := 3, passcred := true, nonblocking := false } [16] 64
        { retval := 5, controllen := 12, msg_flags := 0, errno := 0 }).1 = false
    ∧ hasPostHook (UdStream.recv_ancillary_vectored
        { fd := 3, passcred := true, nonblocking := false } [16] 64
        { retval := 5, controllen := 12, msg_flags := 0, errno := 0 }).1 = false
    ∧ (UdStream.recv_ancillary_vectored
        { fd := 3, passcred := true, nonblocking := false } [16] 64
        { retval := 5, controllen := 12, msg_flags := 0, errno := 0 }).2
      = IoResult.ok (5, 12) := by
  refine ⟨rfl, rfl, by decide⟩

/-- C1 (amended): every `recv_ancillary` / `recv_ancillary_vectored` call
performs the scatter receive as its only observable action — it invokes no
collector pre or post hook — and on success returns the pair of the main-data
byte count and the ancillary byte count the kernel wrote into the header. -/
theorem C1_recv_no_hooks (s : UdStream) (bufs : List Nat) (buf abuf : Nat)
    (w : RecvOutcome) :
    (s.recv_ancillary_vectored bufs abuf w).1 = [Event.recvmsgCall s.fd]
    ∧ hasPreHook (s.recv_ancillary_vectored bufs abuf w).1 = false
    ∧ hasPostHook (s.recv_ancillary_vectored bufs abuf w).1 = false
    ∧ (s.recv_ancillary buf abuf w).1 = [Event.recvmsgCall s.fd]
    ∧ (w.retval ≠ -1 →
        (s.recv_ancillary_vectored bufs abuf w).2
          = IoResult.ok (w.retval.toNat, w.controllen)) := by
  refine ⟨rfl, rfl, rfl, rfl, ?_⟩
  intro h
  simp [UdStream.recv_ancillary_vectored, make_msghdr_r, h]

/-- C1 witness: the success conjunct of the amended claim at a concrete
input. -/
theorem C1_witness :
    (UdStream.recv_ancillary_vectored
        { fd := 3, passcred := true, nonblocking := false } [16] 64
        { retval := 5, controllen := 12, msg_flags := 0, errno := 0 }).2
      = IoResult.ok (5, 12) :=
  (C1_recv_no_hooks { fd := 3, passcred := true, nonblocking := false } [16] 16 64
      { retval := 5, controllen := 12, msg_flags := 0, errno := 0 }).2.2.2.2
    (by decide)

/-- Helper for C4: whenever `_connect` returns a stream, the pass-credentials
option is enabled on it. -/
theorem connectImpl_ok_passcred (w : ConnectWorld) (nb : Bool) (s : UdStream)
    (hs : UdStream.connectImpl w nb = IoResult.ok s) : s.passcred = true := by
  obtain ⟨a, cr, co, pc⟩ := w
  cases a with
  | err e => simp [UdStream.connectImpl] at hs
  | ok u =>
    cases cr with
    | err e => simp [UdStream.connectImpl, create_uds] at hs
    | ok fd =>
      cases co with
      | err e => simp [UdStream.connectImpl, create_uds] at hs
      | ok u2 =>
        cases pc with
        | err e => simp [UdStream.connectImpl, create_uds, set_passcred] at hs
        | ok u3 =>
          simp [UdStream.connectImpl, create_uds, set_passcred] at hs
          subst hs
          rfl

/-- C4: `connect` (through `_connect`) creates the socket, connects it and
unconditionally enables the pass-sender-credentials option: every returned
stream has the option enabled, and when enabling it fails the error is
returned instead of a stream. -/
theorem C4_connect_enables_passcred (w : ConnectWorld) (nb : Bool)
    (pathRes : IoResult Unit) :
    (∀ s, UdStream.connectImpl w nb = IoResult.ok s → s.passcred = true)
    ∧ (∀ e fd, w.addrRes = IoResult.ok () → w.createRes = IoResult.ok fd →
        w.connectRes = IoResult.ok () → w.passcredRes = IoResult.err e →
        UdStream.connectImpl w nb = IoResult.err e)
    ∧ (∀ e, w.passcredRes = IoResult.err e →
        (UdStream.connectImpl w nb).isErr = true)
    ∧ (∀ s, UdStream.connect pathRes w = IoResult.ok s → s.passcred = true) := by
  refine ⟨fun s hs => connectImpl_ok_passcred w nb s hs, ?_, ?_, ?_⟩
  · intro e fd ha hcr hco hpc
    simp [UdStream.connectImpl, ha, hcr, hco, hpc, create_uds, set_passcred]
  · intro e hpc
    obtain ⟨a, cr, co, pc⟩ := w
    cases a with
    | err e2 => simp [UdStream.connectImpl, IoResult.isErr]
    | ok u =>
      cases cr with
      | err e2 => simp [UdStream.connectImpl, create_uds, IoResult.isErr]
      | ok fd =>
        cases co with
        | err e2 => simp [UdStream.connectImpl, create_uds, IoResult.isErr]
        | ok u2 =>
          simp only at hpc
          simp [UdStream.connectImpl, create_uds, set_passcred, hpc,
            IoResult.isErr]
  · intro s hs
    cases pathRes with
    | err e => simp [UdStream.connect] at hs
    | ok u =>
      exact connectImpl_ok_passcred w false s hs

/-- C4 witness: with the socket created and connected but the option-enabling
step failing, `_connect` returns that error rather than a stream. -/
theorem C4_witness :
    UdStream.connectImpl
        { addrRes := IoResult.ok (), createRes := IoResult.ok 7,
          connectRes := IoResult.ok (),
          passcredRes := IoResult.err (IoError.fromRawOsError 13) } false
      = IoResult.err (IoError.fromRawOsError 13) :=
  (C4_connect_enables_passcred
      { addrRes := IoResult.ok (), createRes := IoResult.ok 7,
        connectRes := IoResult.ok (),
        passcredRes := IoResult.err (IoError.fromRawOsError 13) } false
      (IoResult.ok ())).2.1 (IoError.fromRawOsError 13) 7 rfl rfl rfl rfl

/-- C7: every recv/send ancillary operation performs exactly one system call
and returns its outcome directly: the result is an error carrying the raw OS
error code exactly when the system call reported failure, and otherwise the
reported byte counts — no failure is absorbed by an internal retry. -/
theorem C7_single_syscall_err_iff (s : UdStream) (bufs sbufs : List Nat)
    (buf abuf sbuf : Nat) (sabuf : List Nat) (wr : RecvOutcome)
    (ws : SendOutcome) :
    countSyscalls (s.recv_ancillary_vectored bufs abuf wr).1 = 1
    ∧ countSyscalls (s.send_ancillary_vectored sbufs sabuf ws).1 = 1
    ∧ countSyscalls (s.recv_ancillary buf abuf wr).1 = 1
    ∧ countSyscalls (s.send_ancillary sbuf sabuf ws).1 = 1
    ∧ ((s.recv_ancillary_vectored bufs abuf wr).2.isErr = true ↔ wr.retval = -1)
    ∧ ((s.send_ancillary_vectored sbufs sabuf ws).2.isErr = true ↔ ws.retval = -1)
    ∧ (wr.retval = -1 →
        (s.recv_ancillary_vectored bufs abuf wr).2
          = IoResult.err (IoError.fromRawOsError wr.errno))
    ∧ (ws.retval = -1 →
        (s.send_ancillary_vectored sbufs sabuf ws).2
          = IoResult.err (IoError.fromRawOsError ws.errno)) := by
  refine ⟨rfl, rfl, rfl, rfl, ?_, ?_, ?_, ?_⟩
  · by_cases h : wr.retval = -1
    · simp [UdStream.recv_ancillary_vectored, h, IoResult.isErr]
    · simp [UdStream.recv_ancillary_vectored, h, IoResult.isErr]
  · by_cases h : ws.retval = -1
    · simp [UdStream.send_ancillary_vectored, h, IoResult.isErr]
    · simp [UdStream.send_ancillary_vectored, h, IoResult.isErr]
  · intro h
    simp [UdStream.recv_ancillary_vectored, h]
  · intro h
    simp [UdStream.send_ancillary_vectored, h]

/-- C7 witness: a failing `recvmsg` surfaces as the raw OS error. -/
theorem C7_witness :
    (UdStream.recv_ancillary_vectored
        { fd := 3, passcred := true, nonblocking := true } [16] 64
        { retval := -1, controllen := 0, msg_flags := 0, errno := 11 }).2
      = IoResult.err (IoError.fromRawOsError 11) :=
  (C7_single_syscall_err_iff { fd := 3, passcred := true, nonblocking := true }
      [16] [8] 16 64 8 [4]
      { retval := -1, controllen := 0, msg_flags := 0, errno := 11 }
      { retval := -1, errno := 11 }).2.2.2.2.2.2.1 (by decide)

/-- C8: `recv_ancillary` returns the same result as `recv_ancillary_vectored`
on the single-segment scatter list containing its buffer, and `send_ancillary`
the same result as `send_ancillary_vectored` on the single-segment gather
list. -/
theorem C8_nonvectored_delegates (s : UdStream) (buf abuf sbuf : Nat)
    (sabuf : List Nat) (wr : RecvOutcome) (ws : SendOutcome) :
    s.recv_ancillary buf abuf wr = s.recv_ancillary_vectored [buf] abuf wr
    ∧ s.send_ancillary sbuf sabuf ws = s.send_ancillary_vectored [sbuf] sabuf ws :=
  ⟨rfl, rfl⟩

/-- C9: on success, the second component of the pair returned by
`send_ancillary_vectored` is the control length of the header built from the
supplied ancillary view — the byte length of that view, which the `sendmsg`
call (receiving the header through a const pointer) cannot modify — not a
kernel-reported count. -/
theorem C9_send_reports_supplied_controllen (s : UdStream) (bufs : List Nat)
    (abuf : List Nat) (w : SendOutcome) (h : w.retval ≠ -1) :
    (s.send_ancillary_vectored bufs abuf w).2
        = IoResult.ok (w.retval.toNat, abuf.length)
    ∧ (make_msghdr_w bufs abuf).controllen = abuf.length := by
  refine ⟨?_, rfl⟩
  simp [UdStream.send_ancillary_vectored, make_msghdr_w, h]

/-- C9 witness: a successful send with a three-byte ancillary view reports
three ancillary bytes. -/
theorem C9_witness :
    (UdStream.send_ancillary_vectored
        { fd := 3, passcred := true, nonblocking := false } [5]
        [1, 2, 3] { retval := 5, errno := 0 }).2
      = IoResult.ok (5, 3) :=
  (C9_send_reports_supplied_controllen
      { fd := 3, passcred := true, nonblocking := false } [5] [1, 2, 3]
      { retval := 5, errno := 0 } (by decide)).1

/-- C10: `flush` on both `&UdStream` and `UdStream` always returns unit
success, performs no system call, and leaves the stream unchanged. -/
theorem C10_flush_noop (s : UdStream) :
    UdStream.flush_ref s = (s, [], IoResult.ok ())
    ∧ UdStream.flush_owned s = (s, [], IoResult.ok ())
    ∧ countSyscalls (UdStream.flush_ref s).2.1 = 0
    ∧ countSyscalls (UdStream.flush_owned s).2.1 = 0
    ∧ (UdStream.flush_ref s).1 = s
    ∧ (UdStream.flush_owned s).1 = s :=
  ⟨rfl, rfl, rfl, rfl, rfl, rfl⟩
